import Mathlib

/-!
Shallow embedding of the PothosArrayFire buffer/array bridge and block-state
management (src/Source/ArrayFireBlock.cpp, Utility.cpp, NToOneBlock.cpp,
FFT.cpp), with theorems settling the spec claims about them.

Machine data is modelled as element-level bit patterns (`Nat` per element);
"bit-identical" is list equality. ArrayFire's ambient, thread-local
backend/device context is explicit state (`ThreadState`).
-/

/-- af::Backend: the compute backends ArrayFire can be built with. -/
inductive AfBackend
  | cpu
  | cuda
  | opencl
  deriving DecidableEq, Repr

/-- af::dtype values this plugin's dispatch switches cover
(see the SwitchCase tables in src/Source/Utility.cpp). -/
inductive AfDType
  | b8 | s16 | s32 | s64 | u8 | u16 | u32 | u64 | f32 | f64 | c32 | c64
  deriving DecidableEq, Repr

instance : Inhabited AfDType := ⟨AfDType.f32⟩

/-- Pothos::BufferChunk: a typed linear buffer. `data` holds one bit
pattern per element. -/
structure BufferChunk where
  dtype : AfDType
  data : List Nat
  deriving DecidableEq, Repr

/-- af::array restricted to the 1-D arrays this bridge produces: a backend
affinity, an element type and the element bit patterns. A 1-D array has
ArrayFire dims (len, 1, 1, 1). -/
structure AfArray where
  backend : AfBackend
  dtype : AfDType
  data : List Nat
  deriving DecidableEq, Repr

/-- A 2-D af::array (used by getNumberedInputPortsAs2DAfArray): row-major
list of rows. -/
structure AfArray2D where
  backend : AfBackend
  dtype : AfDType
  rows : List (List Nat)
  deriving DecidableEq, Repr

/-- af::array::slice(index): selects the hyperplane at `index` along
dimension 2 (the third dimension). The arrays reaching the bridge are 1-D,
so their third-dimension extent is 1: index 0 yields the whole array viewed
as a slice, any other index is out of range and ArrayFire raises an error
(modelled as `none`). -/
def AfArray.slice (a : AfArray) (index : Nat) : Option AfArray :=
  if index = 0 then some a else none

/-- DeviceCacheEntry from DeviceCache.hpp: backend enum, device index and
device display name. -/
structure DeviceCacheEntry where
  afBackendEnum : AfBackend
  afDeviceIndex : Nat
  name : String
  deriving DecidableEq, Repr

/-- The ambient, thread-local ArrayFire context: the active backend, and the
selected device per backend (ArrayFire keeps a device selection for each
backend; af::getDevice() reads the one of the active backend). -/
structure ThreadState where
  activeBackend : AfBackend
  deviceFor : AfBackend → Nat

/-- af::getDevice(): the selected device index of the ambient backend. -/
def afGetDevice (ts : ThreadState) : Nat :=
  ts.deviceFor ts.activeBackend

/-- Modelled from the spec: `setThreadAFBackend` (declared in
DeviceCache.hpp, its definition is not under src/) switches the ambient
per-thread backend context to the given backend. -/
def setThreadAFBackend (ts : ThreadState) (b : AfBackend) : ThreadState :=
  { ts with activeBackend := b }

/-- Modelled from the spec: `setThreadAFDevice` (declared in
DeviceCache.hpp, its definition is not under src/) switches the ambient
per-thread device, scoped to the ambient backend, to the registry entry of
the given name; a name absent from the registry leaves the context
unchanged (the caller has already checked membership). -/
def setThreadAFDevice (ts : ThreadState) (cache : List DeviceCacheEntry)
    (device : String) : ThreadState :=
  match cache.find? (fun e =>
      e.afBackendEnum == ts.activeBackend && e.name == device) with
  | some e =>
      { ts with deviceFor := fun b =>
          if b = ts.activeBackend then e.afDeviceIndex else ts.deviceFor b }
  | none => ts

/-- ArrayFireBlock instance state: the assume-foreign-arrays flag, the
stored backend, the stored device index, and whether the owning pipeline
has activated the block. -/
structure BlockState where
  assumeArrayFireInputs : Bool
  afBackend : AfBackend
  afDevice : Nat
  isActive : Bool
  deriving DecidableEq, Repr

/-- The error kinds raised by this code: Pothos::RuntimeException (used for
the state-conflict conditions), Pothos::InvalidArgumentException, and
errors raised by the ArrayFire library itself (af::exception). -/
inductive AfError
  | runtimeError (msg : String)
  | invalidArgument (msg : String)
  | afException (msg : String)
  deriving DecidableEq, Repr

/-- The state a caller observes after a setter call: the new state on
success, the original state when the call threw (the C++ setters throw
before mutating anything). -/
def blockStateAfter (bs : BlockState) (r : Except AfError (ThreadState × BlockState)) :
    BlockState :=
  match r with
  | .ok (_, bs') => bs'
  | .error _ => bs

/-- Pothos::Object(backend).convert of an af::Backend to its display string. -/
def backendName : AfBackend → String
  | .cpu => "CPU"
  | .cuda => "CUDA"
  | .opencl => "OpenCL"

/-- ArrayFireBlock::getArrayFireBackend: returns the stored backend's name
(the source also asserts the ambient backend matches the stored one). -/
def getArrayFireBackend (bs : BlockState) : String :=
  backendName bs.afBackend

/-- ArrayFireBlock::setArrayFireBackend: while inactive, switch the ambient
backend, store it, and re-query the ambient device index (a new backend
means a new device selection); while active, throw a RuntimeException. -/
def setArrayFireBackend (ts : ThreadState) (bs : BlockState) (backend : AfBackend) :
    Except AfError (ThreadState × BlockState) :=
  if !bs.isActive then
    let ts' := setThreadAFBackend ts backend
    .ok (ts', { bs with afBackend := backend, afDevice := afGetDevice ts' })
  else
    .error (.runtimeError "Cannot change a block's backend while the block is active.")

/-- ArrayFireBlock::getArrayFireDevice: looks up the cache entry whose
backend and device index match the stored state and returns its name (the
source asserts the lookup succeeds). -/
def getArrayFireDevice (cache : List DeviceCacheEntry) (bs : BlockState) :
    Option String :=
  (cache.find? (fun e =>
      e.afBackendEnum == bs.afBackend && e.afDeviceIndex == bs.afDevice)).map
    (fun e => e.name)

/-- The Poco::format message of setArrayFireDevice's invalid-argument error. -/
def deviceNotFoundMsg (backend : AfBackend) (device : String) : String :=
  "Could not find " ++ backendName backend ++ " device with name \"" ++ device ++ "\""

/-- ArrayFireBlock::setArrayFireDevice: while inactive, resolve the name in
the device cache scoped to the stored backend; on a hit switch the ambient
device and store the entry's index, on a miss throw InvalidArgumentException
naming the backend and the device string; while active, throw a
RuntimeException. -/
def setArrayFireDevice (cache : List DeviceCacheEntry) (ts : ThreadState)
    (bs : BlockState) (device : String) :
    Except AfError (ThreadState × BlockState) :=
  if !bs.isActive then
    match cache.find? (fun e =>
        e.afBackendEnum == bs.afBackend && e.name == device) with
    | some e =>
        .ok (setThreadAFDevice ts cache device,
             { bs with afDevice := e.afDeviceIndex })
    | none =>
        .error (.invalidArgument (deviceNotFoundMsg bs.afBackend device))
  else
    .error (.runtimeError "Cannot change a block's device while the block is active.")

/-- ArrayFireBlock::getBlockAssumesArrayFireInputs. -/
def getBlockAssumesArrayFireInputs (bs : BlockState) : Bool :=
  bs.assumeArrayFireInputs

/-- ArrayFireBlock::setBlockAssumesArrayFireInputs: assigns the flag. The
source performs no isActive check and cannot throw. -/
def setBlockAssumesArrayFireInputs (bs : BlockState) (value : Bool) :
    Except AfError BlockState :=
  .ok { bs with assumeArrayFireInputs := value }

/-!
## Buffer bridge (src/Source/ArrayFireBlock.cpp lines 198-291)
-/

/-- Modelled from the spec: the Pothos::Object conversion from a
BufferChunk to an af::array (registered in BufferConversions.cpp, which is
not under src/) converts the buffer directly into a compute array sharing
or copying its backing memory, preserving element type and contents; the
array is constructed under the ambient backend, which during a block's work
equals the block's stored backend. -/
def bufferChunkToAfArray (backend : AfBackend) (chunk : BufferChunk) : AfArray :=
  { backend := backend, dtype := chunk.dtype, data := chunk.data }

/-- Modelled from the spec: the Pothos::Object conversion from an af::array
to a BufferChunk (BufferConversions.cpp, not under src/) is always a value
conversion preserving element type and count. -/
def afArrayToBufferChunk (a : AfArray) : BufferChunk :=
  { dtype := a.dtype, data := a.data }

/-- The non-foreign branch of ArrayFireBlock::_getInputPortAsAfArray
(lines 262-279): when truncation is requested and the buffer holds more
than minLength elements, re-wrap the leading minLength elements of the
same backing memory as a shorter chunk of the same dtype, then convert the
chunk to an af::array. -/
def getInputPortAsAfArrayPlain (bs : BlockState) (minLength : Nat)
    (truncateToMinLength : Bool) (bufferChunk : BufferChunk) : AfArray :=
  let bufferChunk' :=
    if truncateToMinLength && decide (minLength < bufferChunk.data.length) then
      { dtype := bufferChunk.dtype, data := bufferChunk.data.take minLength }
    else bufferChunk
  bufferChunkToAfArray bs.afBackend bufferChunk'

/-- af_get_size_of: the byte width of each af::dtype's element. -/
def afGetSizeOf : AfDType → Nat
  | .b8 => 1
  | .s16 => 2
  | .s32 => 4
  | .s64 => 8
  | .u8 => 1
  | .u16 => 2
  | .u32 => 4
  | .u64 => 8
  | .f32 => 4
  | .f64 => 8
  | .c32 => 8
  | .c64 => 16

/-- The little-endian bytes of one element's bit pattern. -/
def elemToBytes (size : Nat) (v : Nat) : List Nat :=
  (List.range size).map (fun i => v / 256 ^ i % 256)

/-- The raw backing bytes of an element buffer, as
af::array::host / std::vector<std::uint8_t> see them. -/
def elemsToBytes (size : Nat) (vs : List Nat) : List Nat :=
  (vs.map (elemToBytes size)).flatten

/-- The element bit pattern read back from its little-endian backing
bytes. -/
def bytesToElem (bs : List Nat) : Nat :=
  bs.foldr (fun b acc => b + 256 * acc) 0

/-- The n elements an n-element array of the given element byte width
reads from its backing bytes: each element from its own size-byte slot. -/
def bytesToElems : Nat → Nat → List Nat → List Nat
  | 0, _, _ => []
  | n + 1, size, bs => bytesToElem (bs.take size) :: bytesToElems n size (bs.drop size)

/-- The assume-foreign-arrays branch of
ArrayFireBlock::_getInputPortAsAfArray (lines 209-261). The buffer's
backing container is reinterpreted as an af::array, so the chunk's element
count equals the array's element count. Same backend: use the array
directly, except that the truncation case calls af::array::slice(minLength)
(line 223). Different backend (lines 230-259): switch the ambient backend
to the source array's, copy the array's raw bytes to a host vector,
resize the copy to minLength * elementSize bytes when truncation applies,
recompute numElements as the copied byte count over elementSize, switch
the ambient backend back to the block's, allocate an af::array of
numElements elements there — fresh, uninitialized device memory, whose
pre-write contents the embedding takes as the uninitMemory argument — and
call ret.write<std::uint8_t>(arrayCopy.data(), numElements). af::array's
write takes a BYTE count as its second argument (which is why the
std::uint8_t instantiation suffices), so the call copies only numElements
bytes of the host copy: the remaining numElements * (elementSize - 1)
bytes of the new array keep their uninitialized contents. -/
def getInputPortAsAfArrayForeign (bs : BlockState) (ts : ThreadState)
    (minLength : Nat) (truncateToMinLength : Bool) (pInputAfArray : AfArray)
    (uninitMemory : List Nat) :
    Except AfError (ThreadState × AfArray) :=
  if pInputAfArray.backend == bs.afBackend then
    if truncateToMinLength && decide (minLength < pInputAfArray.data.length) then
      match pInputAfArray.slice minLength with
      | some sliced => .ok (ts, sliced)
      | none => .error (.afException "slice index out of range")
    else
      .ok (ts, pInputAfArray)
  else
    let ts1 := setThreadAFBackend ts pInputAfArray.backend
    let elementSize := afGetSizeOf pInputAfArray.dtype
    let arrayCopy := elemsToBytes elementSize pInputAfArray.data
    let arrayCopy' :=
      if truncateToMinLength && decide (minLength < pInputAfArray.data.length) then
        arrayCopy.take (minLength * elementSize)
      else arrayCopy
    let numElements := arrayCopy'.length / elementSize
    let ts2 := setThreadAFBackend ts1 bs.afBackend
    let retBytes := arrayCopy'.take numElements
        ++ uninitMemory.take (numElements * elementSize - numElements)
    .ok (ts2,
         { backend := ts2.activeBackend
           dtype := pInputAfArray.dtype
           data := bytesToElems numElements elementSize retBytes })

/-- ArrayFireBlock::_postAfArray (lines 284-291): convert the array to a
BufferChunk and post it on the output port; the posted chunk is the
function's result. -/
def postAfArray (afArray : AfArray) : BufferChunk :=
  afArrayToBufferChunk afArray

/-!
## Input ports and the multi-port gather
-/

/-- A numbered input port: its pending buffer and its consumed-element
cursor. Within one work invocation the pending buffer is stable; consume
advances the cursor. -/
structure InputPort where
  buffer : BufferChunk
  consumed : Nat
  deriving DecidableEq, Repr

/-- workInfo().minElements / minAllElements for a block whose ports are the
given input ports: the minimum element count across them (the blocks
modelled here have a single unbounded output side, so the two workInfo
fields agree). -/
def minElementsOf : List InputPort → Nat
  | [] => 0
  | p :: ps => ps.foldl (fun m q => Nat.min m q.buffer.data.length)
      p.buffer.data.length

/-- ArrayFireBlock::getNumberedInputPortsAs2DAfArray (lines 139-162):
allocate an (N, minElements) array of the first port's dtype, fill row i
from port i's buffer converted with truncation to minElements (the numbered
2-D gather runs on plain typed buffers, i.e. the non-foreign conversion
branch; the source asserts each row's element count equals minElements),
and advance port i's consumed cursor by minElements. Returns the array and
the updated ports. -/
def getNumberedInputPortsAs2DAfArray (bs : BlockState)
    (ports : List InputPort) : AfArray2D × List InputPort :=
  let dim1 := minElementsOf ports
  let afDType := (ports.head?.map (fun p => p.buffer.dtype)).getD default
  ({ backend := bs.afBackend
     dtype := afDType
     rows := ports.map (fun p =>
       (getInputPortAsAfArrayPlain bs dim1 true p.buffer).data) },
   ports.map (fun p => { p with consumed := p.consumed + dim1 }))

/-!
## N-to-one blocks (src/Source/NToOneBlock.cpp)
-/

/-- NToOneBlock::work (lines 103-123): read minAllElements; if zero, return
without output. Otherwise convert port 0's buffer (truncated to the
minimum; the conversion default truncates, as the 2-D gather's row-length
assertion relies on), then for each further channel in ascending order
convert its buffer and apply the block's binary function with the running
result on the left. The result is posted on output port 0. The numbered
ports hold plain typed buffers (non-foreign conversion branch). -/
def NToOneWork (bs : BlockState) (func : AfArray → AfArray → AfArray)
    (ports : List InputPort) : Option AfArray :=
  let elems := minElementsOf ports
  if elems = 0 then none
  else
    match ports with
    | [] => none
    | p0 :: rest =>
        some (rest.foldl
          (fun outputAfArray p =>
            func outputAfArray (getInputPortAsAfArrayPlain bs elems true p.buffer))
          (getInputPortAsAfArrayPlain bs elems true p0.buffer))

/-- The left-to-right fold of a binary function over a nonempty list of
arrays in ascending port order: func(...func(func(a0, a1), a2)..., aN1). -/
def foldArraysLeft (func : AfArray → AfArray → AfArray) :
    List AfArray → Option AfArray
  | [] => none
  | a :: rest => some (rest.foldl func a)

/-!
## FFT blocks (src/Source/FFT.cpp)
-/

/-- FFTBlock::work (lines 133-144): if fewer than numBins elements are
available, return at once — no conversion, no output, no consume; the port
is returned unchanged. Otherwise convert the input, run the in-place FFT
function and produce the result (modelled from the spec: producing one
quantum of output consumes the processed input elements;
produceFromAfArray is declared in ArrayFireBlock.hpp, not under src/). -/
def FFTBlockWork (bs : BlockState) (numBins : Nat)
    (func : AfArray → AfArray) (port : InputPort) :
    Option AfArray × InputPort :=
  let elems := minElementsOf [port]
  if elems < numBins then
    (none, port)
  else
    let afArray := getInputPortAsAfArrayPlain bs elems true port.buffer
    (some (func afArray), { port with consumed := port.consumed + elems })

/-- RFFTBlock::work (lines 168-179): identical early-return guard; the
real-FFT function maps the input array to a distinct output array. -/
def RFFTBlockWork (bs : BlockState) (numBins : Nat)
    (func : AfArray → AfArray) (port : InputPort) :
    Option AfArray × InputPort :=
  let elems := minElementsOf [port]
  if elems < numBins then
    (none, port)
  else
    let afInput := getInputPortAsAfArrayPlain bs elems true port.buffer
    (some (func afInput), { port with consumed := port.consumed + elems })

/-!
## Type validation (src/Source/Utility.cpp lines 20-60)
-/

/-- Pothos::DType names reaching validateDType: the supported scalar kinds
plus the globally rejected complex-integer types. -/
inductive PDType
  | int8 | int16 | int32 | int64
  | uint8 | uint16 | uint32 | uint64
  | float32 | float64
  | cfloat32 | cfloat64
  | cint8 | cint16 | cint32 | cint64
  | cuint8 | cuint16 | cuint32 | cuint64
  deriving DecidableEq, Repr

/-- Pothos::DType::name(). -/
def PDType.name : PDType → String
  | .int8 => "int8"
  | .int16 => "int16"
  | .int32 => "int32"
  | .int64 => "int64"
  | .uint8 => "uint8"
  | .uint16 => "uint16"
  | .uint32 => "uint32"
  | .uint64 => "uint64"
  | .float32 => "float32"
  | .float64 => "float64"
  | .cfloat32 => "complex_float32"
  | .cfloat64 => "complex_float64"
  | .cint8 => "complex_int8"
  | .cint16 => "complex_int16"
  | .cint32 => "complex_int32"
  | .cint64 => "complex_int64"
  | .cuint8 => "complex_uint8"
  | .cuint16 => "complex_uint16"
  | .cuint32 => "complex_uint32"
  | .cuint64 => "complex_uint64"

/-- The per-block supported-type-category flags (DTypeSupport in
Utility.hpp). -/
structure DTypeSupport where
  supportInt : Bool
  supportUInt : Bool
  supportFloat : Bool
  supportComplexFloat : Bool
  deriving DecidableEq, Repr

/-- isDTypeInt (Utility.hpp helper): signed-integer scalar types. -/
def isDTypeInt : PDType → Bool
  | .int8 | .int16 | .int32 | .int64 => true
  | _ => false

/-- isDTypeUInt: unsigned-integer scalar types. -/
def isDTypeUInt : PDType → Bool
  | .uint8 | .uint16 | .uint32 | .uint64 => true
  | _ => false

/-- isDTypeFloat: floating-point scalar types. -/
def isDTypeFloat : PDType → Bool
  | .float32 | .float64 => true
  | _ => false

/-- isDTypeComplexFloat: complex floating-point types. -/
def isDTypeComplexFloat : PDType → Bool
  | .cfloat32 | .cfloat64 => true
  | _ => false

/-- The globalUnsupportedTypes list of validateDType (lines 31-41). -/
def globalUnsupportedTypes : List String :=
  ["complex_int8", "complex_int16", "complex_int32", "complex_int64",
   "complex_uint8", "complex_uint16", "complex_uint32", "complex_uint64"]

/-- validateDType (lines 20-60): reject the globally unsupported
complex-integer names with a dedicated invalid-argument error before
consulting the per-block flags; then accept exactly the dtypes whose
category flag is set, rejecting the rest with a generic invalid-argument
error. -/
def validateDType (dtype : PDType) (supportedTypes : DTypeSupport) :
    Except AfError Unit :=
  if globalUnsupportedTypes.contains dtype.name then
    .error (.invalidArgument
      ("PothosGPU blocks do not support this type: " ++ dtype.name))
  else
    let isDTypeSupported :=
      (isDTypeInt dtype && supportedTypes.supportInt) ||
      (isDTypeUInt dtype && supportedTypes.supportUInt) ||
      (isDTypeFloat dtype && supportedTypes.supportFloat) ||
      (isDTypeComplexFloat dtype && supportedTypes.supportComplexFloat)
    if !isDTypeSupported then
      .error (.invalidArgument ("Unsupported type: " ++ dtype.name))
    else
      .ok ()

/-- The constructed-block record NToOneBlock::make produces on success. -/
structure NToOneBlockModel where
  dtype : PDType
  nchans : Nat
  deriving DecidableEq, Repr

/-- NToOneBlock::make (lines 22-38) with the constructor's channel check
(lines 88-92): validate the dtype against the supported flags first, then
require at least two channels; only then is a block instance constructed. -/
def NToOneBlockMake (dtype : PDType) (numChannels : Nat)
    (supportedTypes : DTypeSupport) : Except AfError NToOneBlockModel :=
  match validateDType dtype supportedTypes with
  | .error e => .error e
  | .ok _ =>
      if numChannels < 2 then
        .error (.invalidArgument "numChannels must be >= 2.")
      else
        .ok { dtype := dtype, nchans := numChannels }

/-!
## Helper lemmas
-/

/-- The running foldl minimum over port lengths is bounded by its initial
value and by every visited port's length. -/
lemma minFold_le (ps : List InputPort) (init : Nat) :
    ps.foldl (fun m q => Nat.min m q.buffer.data.length) init ≤ init ∧
    ∀ q ∈ ps, ps.foldl (fun m q => Nat.min m q.buffer.data.length) init ≤
      q.buffer.data.length := by
  induction ps generalizing init with
  | nil => simp
  | cons a l ih =>
    refine ⟨le_trans (ih _).1 (Nat.min_le_left _ _), ?_⟩
    intro q hq
    rcases List.mem_cons.mp hq with rfl | hq
    · exact le_trans (ih _).1 (Nat.min_le_right _ _)
    · exact (ih _).2 q hq

/-- minElementsOf is at most every port's element count. -/
lemma minElementsOf_le (ports : List InputPort) (p : InputPort) (hp : p ∈ ports) :
    minElementsOf ports ≤ p.buffer.data.length := by
  cases ports with
  | nil => cases hp
  | cons p0 ps =>
    rcases List.mem_cons.mp hp with rfl | hp
    · exact (minFold_le ps _).1
    · exact (minFold_le ps _).2 p hp

/-- The non-foreign conversion with truncation yields exactly the leading
minLength elements (the whole buffer when it is no longer than minLength). -/
lemma getInputPortAsAfArrayPlain_data (bs : BlockState) (minLength : Nat)
    (chunk : BufferChunk) :
    (getInputPortAsAfArrayPlain bs minLength true chunk).data =
      chunk.data.take minLength := by
  unfold getInputPortAsAfArrayPlain bufferChunkToAfArray
  by_cases h : minLength < chunk.data.length
  · simp [h]
  · simp [h, List.take_of_length_le (Nat.le_of_not_lt h)]

/-- The non-foreign conversion preserves the element type. -/
lemma getInputPortAsAfArrayPlain_dtype (bs : BlockState) (minLength : Nat)
    (truncate : Bool) (chunk : BufferChunk) :
    (getInputPortAsAfArrayPlain bs minLength truncate chunk).dtype =
      chunk.dtype := by
  unfold getInputPortAsAfArrayPlain bufferChunkToAfArray
  by_cases h : truncate && decide (minLength < chunk.data.length) <;> simp [h]

/-- The complex-integer dtypes of the globalUnsupportedTypes list. -/
def isComplexInt : PDType → Bool
  | .cint8 | .cint16 | .cint32 | .cint64
  | .cuint8 | .cuint16 | .cuint32 | .cuint64 => true
  | _ => false

/-!
## Claims
-/

/-- C1: converting a stream buffer of N elements of type T to a compute
array via the buffer bridge's non-foreign input path without truncation,
and converting that array back via the output path, yields a buffer of the
same N elements of the same type T with bit-identical contents. -/
theorem c1_buffer_array_roundtrip (bs : BlockState) (minLength : Nat)
    (buf : BufferChunk) :
    postAfArray (getInputPortAsAfArrayPlain bs minLength false buf) = buf ∧
    (postAfArray (getInputPortAsAfArrayPlain bs minLength false buf)).dtype
      = buf.dtype ∧
    (postAfArray (getInputPortAsAfArrayPlain bs minLength false buf)).data.length
      = buf.data.length :=
  ⟨rfl, rfl, rfl⟩

/-- C4 (code bug): in the assume-foreign-arrays path with matching backend
and truncation requested (minLength 3 below a 5-element array), the source
calls af::array::slice(minLength), which selects index minLength along the
third dimension — out of range for a 1-D array, raising an ArrayFire error —
instead of restricting the array to its leading minLength elements. -/
theorem c4_foreign_truncation_slice_bug :
    getInputPortAsAfArrayForeign
        { assumeArrayFireInputs := true, afBackend := .cpu, afDevice := 0,
          isActive := true }
        { activeBackend := .cpu, deviceFor := fun _ => 0 }
        3 true
        { backend := .cpu, dtype := .f32, data := [1, 2, 3, 4, 5] }
        []
      = .error (.afException "slice index out of range") := rfl

/-- C5 (code bug): bridging a cuda-built s32 array [1, 2] into a cpu
block reaches ret.write<std::uint8_t>(arrayCopy.data(), numElements) at
ArrayFireBlock.cpp:257-259. write's second parameter is a byte count, so
only numElements = 2 of the 8 host-copy bytes are written: the new array's
elements are read from 2 copied bytes plus 6 uninitialized bytes (0xFF in
this execution), yielding [0xFFFF0001, 0xFFFFFFFF] — not the source's
element values [1, 2], refuting value preservation for every dtype wider
than one byte. -/
theorem c5_cross_backend_partial_write_bug :
    getInputPortAsAfArrayForeign
        { assumeArrayFireInputs := true, afBackend := .cpu, afDevice := 0,
          isActive := true }
        { activeBackend := .cpu, deviceFor := fun _ => 0 }
        2 false
        { backend := .cuda, dtype := .s32, data := [1, 2] }
        [255, 255, 255, 255, 255, 255]
      = .ok ({ activeBackend := .cpu, deviceFor := fun _ => 0 },
             { backend := .cpu, dtype := .s32,
               data := [4294901761, 4294967295] }) := by
  rfl

/-- For one-byte dtypes the byte count handed to write coincides with the
full buffer size, so the cross-backend transit happens to preserve values:
the mis-sized write only corrupts dtypes wider than one byte. -/
lemma cross_backend_u8_full_write :
    getInputPortAsAfArrayForeign
        { assumeArrayFireInputs := true, afBackend := .cpu, afDevice := 0,
          isActive := true }
        { activeBackend := .cpu, deviceFor := fun _ => 0 }
        2 false
        { backend := .cuda, dtype := .u8, data := [1, 2] }
        [255, 255, 255, 255, 255, 255]
      = .ok ({ activeBackend := .cpu, deviceFor := fun _ => 0 },
             { backend := .cpu, dtype := .u8, data := [1, 2] }) := by
  rfl

/-- C7 counterexample: setBlockAssumesArrayFireInputs performs no
active-state check — on an active block it succeeds and mutates the
assume-foreign-arrays flag instead of raising an error, refuting the claim
that every configuration component is mutable only while inactive. -/
theorem c7_flag_mutable_while_active_counterexample :
    ({ assumeArrayFireInputs := false, afBackend := .cpu, afDevice := 0,
       isActive := true } : BlockState).isActive = true ∧
    setBlockAssumesArrayFireInputs
        { assumeArrayFireInputs := false, afBackend := .cpu, afDevice := 0,
          isActive := true } true
      = .ok { assumeArrayFireInputs := true, afBackend := .cpu, afDevice := 0,
              isActive := true } :=
  ⟨rfl, rfl⟩

/-- C7 (amended): the backend and device components of a block's
configuration are mutable only while inactive — setting either on an
active block raises the state-conflict RuntimeException — while the
assume-foreign-arrays flag is settable at any time, active included,
and never raises an error. -/
theorem c7_active_guard_scope (cache : List DeviceCacheEntry)
    (ts : ThreadState) (bs : BlockState) (b : AfBackend) (dev : String)
    (v : Bool) :
    (bs.isActive = true →
      setArrayFireBackend ts bs b
        = .error (.runtimeError
            "Cannot change a block's backend while the block is active.") ∧
      setArrayFireDevice cache ts bs dev
        = .error (.runtimeError
            "Cannot change a block's device while the block is active.")) ∧
    setBlockAssumesArrayFireInputs bs v
      = .ok { bs with assumeArrayFireInputs := v } := by
  refine ⟨fun h => ⟨?_, ?_⟩, rfl⟩
  · simp [setArrayFireBackend, h]
  · simp [setArrayFireDevice, h]

/-- Witness for C7's amended theorem at an active block. -/
theorem c7_active_guard_scope_witness :
    setArrayFireBackend
        { activeBackend := .cpu, deviceFor := fun _ => 0 }
        { assumeArrayFireInputs := false, afBackend := .cpu, afDevice := 0,
          isActive := true }
        .cuda
      = .error (.runtimeError
          "Cannot change a block's backend while the block is active.") ∧
    setBlockAssumesArrayFireInputs
        { assumeArrayFireInputs := false, afBackend := .cpu, afDevice := 0,
          isActive := true } true
      = .ok { assumeArrayFireInputs := true, afBackend := .cpu, afDevice := 0,
              isActive := true } := by
  have h := c7_active_guard_scope []
    { activeBackend := .cpu, deviceFor := fun _ => 0 }
    { assumeArrayFireInputs := false, afBackend := .cpu, afDevice := 0,
      isActive := true }
    .cuda "dev" true
  exact ⟨(h.1 rfl).1, h.2⟩

/-- C8: every complex-integer dtype is rejected by validateDType with the
dedicated invalid-argument error before the per-block supported-type flags
are even consulted, so (as NToOneBlock::make shows) no block instance is
constructed for such a type. -/
theorem c8_complex_int_rejected (dtype : PDType)
    (h : isComplexInt dtype = true) (supportedTypes : DTypeSupport)
    (numChannels : Nat) :
    validateDType dtype supportedTypes
      = .error (.invalidArgument
          ("PothosGPU blocks do not support this type: " ++ dtype.name)) ∧
    NToOneBlockMake dtype numChannels supportedTypes
      = .error (.invalidArgument
          ("PothosGPU blocks do not support this type: " ++ dtype.name)) := by
  cases dtype <;> simp [isComplexInt] at h <;> exact ⟨rfl, rfl⟩

/-- Witness for C8 at complex_int8 with every category flag enabled. -/
theorem c8_complex_int_rejected_witness :
    isComplexInt .cint8 = true ∧
    validateDType .cint8
        { supportInt := true, supportUInt := true, supportFloat := true,
          supportComplexFloat := true }
      = .error (.invalidArgument
          "PothosGPU blocks do not support this type: complex_int8") ∧
    NToOneBlockMake .cint8 2
        { supportInt := true, supportUInt := true, supportFloat := true,
          supportComplexFloat := true }
      = .error (.invalidArgument
          "PothosGPU blocks do not support this type: complex_int8") := by
  have h := c8_complex_int_rejected .cint8 rfl
    { supportInt := true, supportUInt := true, supportFloat := true,
      supportComplexFloat := true } 2
  exact ⟨rfl, h.1, h.2⟩

/-- C9: with at least two channels and a positive minimum element count,
one NToOneBlock::work invocation posts on output port 0 the left-to-right
fold of the block's binary function over the per-port input arrays in
ascending port order. -/
theorem c9_n_to_one_left_fold (bs : BlockState)
    (func : AfArray → AfArray → AfArray) (ports : List InputPort)
    (h2 : 2 ≤ ports.length) (hmin : minElementsOf ports ≠ 0) :
    NToOneWork bs func ports =
      foldArraysLeft func (ports.map (fun p =>
        getInputPortAsAfArrayPlain bs (minElementsOf ports) true p.buffer)) := by
  obtain ⟨p0, rest, rfl⟩ : ∃ p0 rest, ports = p0 :: rest := by
    cases ports with
    | nil => simp at h2
    | cons a l => exact ⟨a, l, rfl⟩
  simp only [NToOneWork, foldArraysLeft, hmin, if_neg hmin, List.map_cons,
    List.foldl_map]
  simp

/-- Witness for C9: two single-element ports combined by a function. -/
theorem c9_n_to_one_left_fold_witness :
    NToOneWork
        { assumeArrayFireInputs := false, afBackend := .cpu, afDevice := 0,
          isActive := true }
        (fun a b => { backend := a.backend, dtype := a.dtype,
                      data := a.data ++ b.data })
        [ { buffer := { dtype := .s32, data := [5] }, consumed := 0 },
          { buffer := { dtype := .s32, data := [6] }, consumed := 0 } ]
      = some { backend := .cpu, dtype := .s32, data := [5, 6] } := by
  have h := c9_n_to_one_left_fold
    { assumeArrayFireInputs := false, afBackend := .cpu, afDevice := 0,
      isActive := true }
    (fun a b => { backend := a.backend, dtype := a.dtype,
                  data := a.data ++ b.data })
    [ { buffer := { dtype := .s32, data := [5] }, consumed := 0 },
      { buffer := { dtype := .s32, data := [6] }, consumed := 0 } ]
    (by decide) (by decide)
  rw [h]
  rfl

/-- C10: when fewer than numBins elements are available, one work
invocation of the FFT block (forward and inverse share FFTBlock::work, the
real variants RFFTBlock::work) returns at once: no output is produced and
the input port — buffer and consumed cursor — is unchanged. -/
theorem c10_fft_early_return (bs : BlockState) (numBins : Nat)
    (ffunc rfunc : AfArray → AfArray) (port : InputPort)
    (h : minElementsOf [port] < numBins) :
    FFTBlockWork bs numBins ffunc port = (none, port) ∧
    RFFTBlockWork bs numBins rfunc port = (none, port) := by
  constructor <;> simp [FFTBlockWork, RFFTBlockWork, h]

/-- Witness for C10: a 3-element input against 4 FFT bins. -/
theorem c10_fft_early_return_witness :
    FFTBlockWork
        { assumeArrayFireInputs := false, afBackend := .cpu, afDevice := 0,
          isActive := true }
        4 id
        { buffer := { dtype := .c32, data := [1, 2, 3] }, consumed := 0 }
      = (none, { buffer := { dtype := .c32, data := [1, 2, 3] }, consumed := 0 }) ∧
    RFFTBlockWork
        { assumeArrayFireInputs := false, afBackend := .cpu, afDevice := 0,
          isActive := true }
        4 id
        { buffer := { dtype := .c32, data := [1, 2, 3] }, consumed := 0 }
      = (none, { buffer := { dtype := .c32, data := [1, 2, 3] }, consumed := 0 }) :=
  c10_fft_early_return
    { assumeArrayFireInputs := false, afBackend := .cpu, afDevice := 0,
      isActive := true }
    4 id id
    { buffer := { dtype := .c32, data := [1, 2, 3] }, consumed := 0 }
    (by decide)

/-- C3: for a block with at least one numbered input port, all ports
sharing one element type, getNumberedInputPortsAs2DAfArray builds a 2-D
array of shape (N, M) — N the port count, M the minimum-across-ports
element count — whose row i is exactly port i's first M elements, and it
advances every port's consumed cursor by exactly M. -/
theorem c3_gather_2d (bs : BlockState) (ports : List InputPort)
    (dtype0 : AfDType) (hne : ports ≠ [])
    (hdt : ∀ p ∈ ports, p.buffer.dtype = dtype0) :
    (getNumberedInputPortsAs2DAfArray bs ports).1.rows
      = ports.map (fun p => p.buffer.data.take (minElementsOf ports)) ∧
    (getNumberedInputPortsAs2DAfArray bs ports).1.rows.length = ports.length ∧
    (∀ row ∈ (getNumberedInputPortsAs2DAfArray bs ports).1.rows,
      row.length = minElementsOf ports) ∧
    (getNumberedInputPortsAs2DAfArray bs ports).1.dtype = dtype0 ∧
    (getNumberedInputPortsAs2DAfArray bs ports).2
      = ports.map (fun p =>
          { p with consumed := p.consumed + minElementsOf ports }) := by
  refine ⟨?_, ?_, ?_, ?_, rfl⟩
  · unfold getNumberedInputPortsAs2DAfArray
    simp only [getInputPortAsAfArrayPlain_data]
  · simp [getNumberedInputPortsAs2DAfArray]
  · intro row hrow
    unfold getNumberedInputPortsAs2DAfArray at hrow
    simp only [List.mem_map] at hrow
    obtain ⟨p, hp, rfl⟩ := hrow
    rw [getInputPortAsAfArrayPlain_data, List.length_take]
    exact Nat.min_eq_left (minElementsOf_le ports p hp)
  · unfold getNumberedInputPortsAs2DAfArray
    cases ports with
    | nil => cases hne rfl
    | cons p0 ps => exact hdt p0 (List.mem_cons_self p0 ps)

/-- Witness for C3: two int32 ports holding 3 and 2 elements; M = 2. -/
theorem c3_gather_2d_witness :
    (getNumberedInputPortsAs2DAfArray
        { assumeArrayFireInputs := false, afBackend := .cpu, afDevice := 0,
          isActive := true }
        [ { buffer := { dtype := .s32, data := [1, 2, 3] }, consumed := 0 },
          { buffer := { dtype := .s32, data := [4, 5] }, consumed := 7 } ]).1.rows
      = [[1, 2], [4, 5]] ∧
    (getNumberedInputPortsAs2DAfArray
        { assumeArrayFireInputs := false, afBackend := .cpu, afDevice := 0,
          isActive := true }
        [ { buffer := { dtype := .s32, data := [1, 2, 3] }, consumed := 0 },
          { buffer := { dtype := .s32, data := [4, 5] }, consumed := 7 } ]).2
      = [ { buffer := { dtype := .s32, data := [1, 2, 3] }, consumed := 2 },
          { buffer := { dtype := .s32, data := [4, 5] }, consumed := 9 } ] := by
  have h := c3_gather_2d
    { assumeArrayFireInputs := false, afBackend := .cpu, afDevice := 0,
      isActive := true }
    [ { buffer := { dtype := .s32, data := [1, 2, 3] }, consumed := 0 },
      { buffer := { dtype := .s32, data := [4, 5] }, consumed := 7 } ]
    .s32 (by decide) (by decide)
  exact ⟨h.1.trans (by decide), h.2.2.2.2.trans (by decide)⟩

/-- C6: requesting, while inactive, a device name with no registry entry
for the block's stored backend raises an InvalidArgumentException whose
message names both the backend and the requested device string; the stored
device index is unchanged and no default device is silently selected. -/
theorem c6_unknown_device_rejected (cache : List DeviceCacheEntry)
    (ts : ThreadState) (bs : BlockState) (device : String)
    (hinactive : bs.isActive = false)
    (hnone : ∀ e ∈ cache,
      ¬(e.afBackendEnum = bs.afBackend ∧ e.name = device)) :
    setArrayFireDevice cache ts bs device
      = .error (.invalidArgument (deviceNotFoundMsg bs.afBackend device)) ∧
    blockStateAfter bs (setArrayFireDevice cache ts bs device) = bs ∧
    (∃ pre mid post : String,
      deviceNotFoundMsg bs.afBackend device
        = pre ++ backendName bs.afBackend ++ (mid ++ device ++ post)) := by
  have hfind : cache.find? (fun e =>
      e.afBackendEnum == bs.afBackend && e.name == device) = none := by
    rw [List.find?_eq_none]
    intro e he
    simpa [Bool.and_eq_true] using hnone e he
  have herr : setArrayFireDevice cache ts bs device
      = .error (.invalidArgument (deviceNotFoundMsg bs.afBackend device)) := by
    simp [setArrayFireDevice, hinactive, hfind]
  refine ⟨herr, by rw [herr]; rfl,
    "Could not find ", " device with name \x22", "\x22", ?_⟩
  simp [deviceNotFoundMsg, String.append_assoc]

/-- Witness for C6: a one-entry CPU registry and an unknown name. -/
theorem c6_unknown_device_rejected_witness :
    setArrayFireDevice
        [ { afBackendEnum := .cpu, afDeviceIndex := 0, name := "Intel CPU" } ]
        { activeBackend := .cpu, deviceFor := fun _ => 0 }
        { assumeArrayFireInputs := false, afBackend := .cpu, afDevice := 0,
          isActive := false }
        "No Such Device"
      = .error (.invalidArgument
          (deviceNotFoundMsg .cpu "No Such Device")) := by
  have h := c6_unknown_device_rejected
    [ { afBackendEnum := .cpu, afDeviceIndex := 0, name := "Intel CPU" } ]
    { activeBackend := .cpu, deviceFor := fun _ => 0 }
    { assumeArrayFireInputs := false, afBackend := .cpu, afDevice := 0,
      isActive := false }
    "No Such Device" rfl (by decide)
  exact h.1

/-- C2: with a registry that assigns each (backend, device-index) pair at
most one entry, an inactive block's setBackend always succeeds, is
immediately reflected by getArrayFireBackend and leaves the ambient context
matching the stored backend; an inactive block's setDevice with a name
registered for its backend succeeds and is immediately reflected by
getArrayFireDevice; while active, both setters raise the state-conflict
RuntimeException and the stored state is unchanged. -/
theorem c2_setters_getters (cache : List DeviceCacheEntry) (ts : ThreadState)
    (bs : BlockState) (b : AfBackend) (dev : String)
    (huniq : ∀ e1 ∈ cache, ∀ e2 ∈ cache,
      e1.afBackendEnum = e2.afBackendEnum →
      e1.afDeviceIndex = e2.afDeviceIndex → e1 = e2) :
    (bs.isActive = false →
      ∃ ts' bs', setArrayFireBackend ts bs b = .ok (ts', bs') ∧
        getArrayFireBackend bs' = backendName b ∧
        bs'.afBackend = b ∧
        ts'.activeBackend = bs'.afBackend) ∧
    (bs.isActive = false →
      (∃ e ∈ cache, e.afBackendEnum = bs.afBackend ∧ e.name = dev) →
      ∃ ts' bs', setArrayFireDevice cache ts bs dev = .ok (ts', bs') ∧
        getArrayFireDevice cache bs' = some dev) ∧
    (bs.isActive = true →
      setArrayFireBackend ts bs b
        = .error (.runtimeError
            "Cannot change a block's backend while the block is active.") ∧
      setArrayFireDevice cache ts bs dev
        = .error (.runtimeError
            "Cannot change a block's device while the block is active.") ∧
      blockStateAfter bs (setArrayFireBackend ts bs b) = bs ∧
      blockStateAfter bs (setArrayFireDevice cache ts bs dev) = bs) := by
  refine ⟨?_, ?_, ?_⟩
  · intro hin
    refine ⟨setThreadAFBackend ts b,
      { bs with afBackend := b,
                afDevice := afGetDevice (setThreadAFBackend ts b) },
      ?_, rfl, rfl, rfl⟩
    simp [setArrayFireBackend, hin]
  · intro hin hex
    obtain ⟨e, hmem, hb, hn⟩ := hex
    have hsome : (cache.find? (fun x =>
        x.afBackendEnum == bs.afBackend && x.name == dev)).isSome := by
      rw [List.find?_isSome]
      exact ⟨e, hmem, by simp [hb, hn]⟩
    obtain ⟨e0, hfind⟩ := Option.isSome_iff_exists.mp hsome
    have hp0 := List.find?_some hfind
    have hm0 := List.mem_of_find?_eq_some hfind
    simp only [Bool.and_eq_true, beq_iff_eq] at hp0
    refine ⟨setThreadAFDevice ts cache dev,
      { bs with afDevice := e0.afDeviceIndex }, ?_, ?_⟩
    · simp [setArrayFireDevice, hin, hfind]
    · unfold getArrayFireDevice
      have hsome2 : (cache.find? (fun x =>
          x.afBackendEnum == bs.afBackend &&
          x.afDeviceIndex == e0.afDeviceIndex)).isSome := by
        rw [List.find?_isSome]
        exact ⟨e0, hm0, by simp [hp0.1]⟩
      obtain ⟨e1, hfind1⟩ := Option.isSome_iff_exists.mp hsome2
      have hp1 := List.find?_some hfind1
      have hm1 := List.mem_of_find?_eq_some hfind1
      simp only [Bool.and_eq_true, beq_iff_eq] at hp1
      have he10 : e1 = e0 :=
        huniq e1 hm1 e0 hm0 (hp1.1.trans hp0.1.symm) hp1.2
      simp only [BlockState.mk.injEq] at hfind1 ⊢
      rw [show ({ bs with afDevice := e0.afDeviceIndex } : BlockState).afBackend
            = bs.afBackend from rfl] at *
      rw [hfind1]
      simp [he10, hp0.2]
  · intro hact
    have h1 : setArrayFireBackend ts bs b
        = .error (.runtimeError
            "Cannot change a block's backend while the block is active.") := by
      simp [setArrayFireBackend, hact]
    have h2 : setArrayFireDevice cache ts bs dev
        = .error (.runtimeError
            "Cannot change a block's device while the block is active.") := by
      simp [setArrayFireDevice, hact]
    exact ⟨h1, h2, by rw [h1]; rfl, by rw [h2]; rfl⟩

/-- Witness for C2: a two-entry registry; an inactive cuda block sets
device "GPU0" and the getter reads it back; an active block's setBackend
fails with the state-conflict error. -/
theorem c2_setters_getters_witness :
    (∃ ts' bs',
      setArrayFireDevice
          [ { afBackendEnum := .cpu, afDeviceIndex := 0, name := "CPU0" },
            { afBackendEnum := .cuda, afDeviceIndex := 0, name := "GPU0" } ]
          { activeBackend := .cuda, deviceFor := fun _ => 0 }
          { assumeArrayFireInputs := false, afBackend := .cuda, afDevice := 0,
            isActive := false }
          "GPU0"
        = .ok (ts', bs') ∧
      getArrayFireDevice
          [ { afBackendEnum := .cpu, afDeviceIndex := 0, name := "CPU0" },
            { afBackendEnum := .cuda, afDeviceIndex := 0, name := "GPU0" } ]
          bs'
        = some "GPU0") ∧
    setArrayFireBackend
        { activeBackend := .cuda, deviceFor := fun _ => 0 }
        { assumeArrayFireInputs := false, afBackend := .cuda, afDevice := 0,
          isActive := true }
        .cpu
      = .error (.runtimeError
          "Cannot change a block's backend while the block is active.") := by
  have hinactive := c2_setters_getters
    [ { afBackendEnum := .cpu, afDeviceIndex := 0, name := "CPU0" },
      { afBackendEnum := .cuda, afDeviceIndex := 0, name := "GPU0" } ]
    { activeBackend := .cuda, deviceFor := fun _ => 0 }
    { assumeArrayFireInputs := false, afBackend := .cuda, afDevice := 0,
      isActive := false }
    .cpu "GPU0" (by decide)
  have hactive := c2_setters_getters
    [ { afBackendEnum := .cpu, afDeviceIndex := 0, name := "CPU0" },
      { afBackendEnum := .cuda, afDeviceIndex := 0, name := "GPU0" } ]
    { activeBackend := .cuda, deviceFor := fun _ => 0 }
    { assumeArrayFireInputs := false, afBackend := .cuda, afDevice := 0,
      isActive := true }
    .cpu "GPU0" (by decide)
  refine ⟨?_, (hactive.2.2 rfl).1⟩
  exact hinactive.2.1 rfl
    ⟨{ afBackendEnum := .cuda, afDeviceIndex := 0, name := "GPU0" },
      by decide, rfl, rfl⟩
